import Mathlib

/-!
Shallow embedding of the Acts propagation orchestration layer
(Core/include/Acts/Propagator/Propagator.hpp): the Status and Direction
enumerations, the Result container, the Options aggregate, the private stepping
loop propagate_, and the two public propagate overloads.

Machine double values (path lengths, tolerances, step sizes) are modelled as ℚ;
the claims under study concern control flow and exact accumulation, not rounding.

The stepping implementation, the action list and the abort lists are type and
function parameters, mirroring the template parameters of the C++ class.  The
loop is instrumented with Counters (number of step invocations, number of user
and internal aborter evaluations, the list of per-step advances) and an
ExitKind recording how the loop was left, so that the accounting claims are
statable; the instrumentation does not influence the computation of the Result.
-/

/-- Propagation direction, relative to momentum (enum Direction). -/
inductive Direction : Type
| backward
| forward
deriving DecidableEq

/-- Numeric value of a direction (backward = -1, forward = 1), as a rational. -/
def Direction.toQ : Direction → ℚ
| .backward => -1
| .forward => 1

/-- Result status of track parameter propagation (enum struct Status). -/
inductive Status : Type
| SUCCESS
| FAILURE
| UNSET
| IN_PROGRESS
| WRONG_DIRECTION
deriving DecidableEq

/-- Simple class holding result of a propagation call (struct Result).  P is the
final track parameter type; E models the Extendable extension payloads
contributed by actions.  The field endParameters models the unique_ptr, absent
meaning nullptr; it and the other fields carry the member initializers of the
C++ struct. -/
structure Result (P E : Type) where
  endParameters : Option P := none
  status : Status := Status.UNSET
  steps : Nat := 0
  pathLength : ℚ := 0
  ext : E
deriving DecidableEq

/-- Validity check of a propagation result (Result::operator bool): true iff the
final parameters are set and the propagation status is SUCCESS. -/
def Result.isValid {P E : Type} (r : Result P E) : Bool :=
  r.endParameters.isSome && (r.status == Status.SUCCESS)

/-- Options for a propagate() call (struct Options).  The action list and the
user abort list are carried as functions: the action list maps the cache and the
extension payloads to their updated values, the abort list is a predicate on
result and cache (the composition machinery of ActionList.hpp / AbortList.hpp is
not part of this header).  Numeric defaults follow the C++ member initializers;
max_path_length (default: largest double) must be given explicitly. -/
structure Options (C P E : Type) where
  direction : Direction := Direction.forward
  max_steps : Nat := 1000
  target_tolerance : ℚ := 1
  max_step_size : ℚ := 1
  max_path_length : ℚ
  action_list : C → E → C × E
  stop_conditions : Result P E → C → Bool

/-- Stepping implementation interface used by the unconstrained overload: cache
construction from the start parameters, the assignment of cache.step_size,
step(cache) returning the signed path length advanced together with the updated
cache, and convert(cache). -/
structure Impl (Start C P : Type) where
  mkCache : Start → C
  setStepSize : C → ℚ → C
  step : C → ℚ × C
  convert : C → P

/-- Stepping implementation interface used by the surface-targeted overload:
cache construction from the start parameters and an initial signed step size,
step(cache), and the convert(cache, target) overload. -/
structure SurfaceImpl (Start S C P : Type) where
  mkCache : Start → ℚ → C
  step : C → ℚ × C
  convert : C → S → P

/-- Configuration of the detail::path_limit_reached internal aborter, as set up
by both propagate overloads (Propagator.hpp configures exactly the two fields
shown). -/
structure path_limit_reached where
  signed_path_limit : ℚ := 0
  tolerance : ℚ := 0
deriving DecidableEq

/-- Modelled from the spec: the evaluation predicate of path_limit_reached (its
definition, detail/standard_abort_conditions.hpp, is not under src/).  Spec 4.4:
returns true when the cumulative signed path length already advanced is within
tolerance of signed_path_limit or has exceeded it in magnitude. -/
def path_limit_reached.check {C P E : Type} (a : path_limit_reached)
    (r : Result P E) (_cache : C) : Bool :=
  decide (|a.signed_path_limit| - |r.pathLength| ≤ a.tolerance)

/-- Configuration of the detail::surface_reached internal aborter: a non-owning
pointer to the target surface (an Option models the pointer, none meaning
nullptr), the propagation direction and the target tolerance. -/
structure surface_reached (S : Type) where
  surface : Option S := none
  direction : Direction := Direction.forward
  tolerance : ℚ := 0

/-- Modelled from the spec: the evaluation predicate of surface_reached
(detail/standard_abort_conditions.hpp is not under src/).  Spec 4.5: true when
the cache state's estimated distance to the surface, computed via the surface's
intersection capability dist, is within tolerance.  A null surface pointer never
fires. -/
def surface_reached.check {S C P E : Type} (dist : S → C → ℚ)
    (a : surface_reached S) (_r : Result P E) (c : C) : Bool :=
  match a.surface with
  | none => false
  | some s => decide (|dist s c| ≤ a.tolerance)

/-- Instrumentation: how many times step, the user abort list and the internal
aborters were invoked inside the loop body, and the signed advances returned by
the successive step calls, in order.  The initial (pre-loop) internal-aborter
check of propagate_ is not counted here. -/
structure Counters where
  stepCalls : Nat := 0
  userAbortCalls : Nat := 0
  internalAbortCalls : Nat := 0
  advances : List ℚ := []
deriving DecidableEq

/-- How the loop of propagate_ was left: the initial precondition check fired,
the steps guard was exhausted, or a break was triggered by the user abort list
or by the internal aborters. -/
inductive ExitKind : Type
| precondition
| maxSteps
| userAbort
| internalAbort
deriving DecidableEq

/-- Output of the stepping loop: the mutated result and cache, the
instrumentation counters, and the way the loop exited. -/
structure LoopOut (C P E : Type) where
  result : Result P E
  cache : C
  counters : Counters
  exit : ExitKind

/-- One loop-body prefix of propagate_ (lines 207-210): perform a propagation
step, accumulate result.pathLength, then run the action list on the cache and
the extension payloads.  Returns the updated result, the updated cache and the
signed advance of this step. -/
def iter {C P E : Type} (stepf : C → ℚ × C) (actf : C → E → C × E)
    (r : Result P E) (c : C) : Result P E × C × ℚ :=
  let sc := stepf c
  let r1 : Result P E := { r with pathLength := r.pathLength + sc.1 }
  let ae := actf sc.2 r1.ext
  ({ r1 with ext := ae.2 }, ae.1, sc.1)

/-- The for-loop of propagate_ (lines 206-218), with fuel the number of
remaining iterations allowed by the guard result.steps < options.max_steps.
Each iteration steps and runs the actions, then evaluates
options.stop_conditions(result, cache) || internal_stop_conditions(result,
cache) with the C++ short-circuit semantics; if the disjunction is true the step
counter is incremented once more and the loop breaks, otherwise the loop
increment of result.steps is performed and the loop continues. -/
def runLoop {C P E : Type} (stepf : C → ℚ × C) (actf : C → E → C × E)
    (user internal : Result P E → C → Bool) :
    Nat → Result P E → C → Counters → LoopOut C P E
| 0, r, c, k => ⟨r, c, k, ExitKind.maxSteps⟩
| n + 1, r, c, k =>
  let it := iter stepf actf r c
  let k1 : Counters :=
    { k with
        stepCalls := k.stepCalls + 1
        advances := k.advances ++ [it.2.2]
        userAbortCalls := k.userAbortCalls + 1 }
  if user it.1 it.2.1 then
    ⟨{ it.1 with steps := it.1.steps + 1 }, it.2.1, k1, ExitKind.userAbort⟩
  else
    let k2 : Counters := { k1 with internalAbortCalls := k1.internalAbortCalls + 1 }
    if internal it.1 it.2.1 then
      ⟨{ it.1 with steps := it.1.steps + 1 }, it.2.1, k2, ExitKind.internalAbort⟩
    else
      runLoop stepf actf user internal n { it.1 with steps := it.1.steps + 1 } it.2.1 k2

/-- Private method Propagator::propagate_ (lines 196-220): if the internal stop
conditions already hold on the initial state, return FAILURE without stepping;
otherwise run the stepping loop (at most max_steps - result.steps iterations,
per the loop guard) and return IN_PROGRESS. -/
def propagate_ {C P E : Type} (stepf : C → ℚ × C) (actf : C → E → C × E)
    (user internal : Result P E → C → Bool) (max_steps : Nat)
    (r : Result P E) (c : C) : Status × LoopOut C P E :=
  if internal r c then
    (Status.FAILURE, ⟨r, c, {}, ExitKind.precondition⟩)
  else
    (Status.IN_PROGRESS, runLoop stepf actf user internal (max_steps - r.steps) r c {})

/-- The freshly initialized result object of both public overloads
(result_type result(Status::IN_PROGRESS)); extension payloads are
default-initialized. -/
def initialResult (P E : Type) [Inhabited E] : Result P E :=
  { status := Status.IN_PROGRESS, ext := default }

/-- Cache initialization of the unconstrained overload (lines 262-263): the
cache is built from the start parameters and its step_size set to
options.direction * options.max_step_size. -/
def initialCache {Start C P E : Type} (impl : Impl Start C P) (start : Start)
    (options : Options C P E) : C :=
  impl.setStepSize (impl.mkCache start) (options.direction.toQ * options.max_step_size)

/-- Cache initialization of the surface-targeted overload (line 324): the cache
is built from the start parameters and the initial signed step size
options.direction * options.max_step_size. -/
def initialCacheT {Start S C P E : Type} (impl : SurfaceImpl Start S C P)
    (start : Start) (options : Options C P E) : C :=
  impl.mkCache start (options.direction.toQ * options.max_step_size)

/-- The internal abort list built by the unconstrained overload (lines 265-272):
a single path_limit_reached, with signed_path_limit = std::abs(max_path_length)
* direction and tolerance = target_tolerance. -/
def internalAbortersOf {C P E : Type} (options : Options C P E) : path_limit_reached :=
  { signed_path_limit := |options.max_path_length| * options.direction.toQ
    tolerance := options.target_tolerance }

/-- Body shared by the unconstrained overload once the internal abort list is
built: run propagate_; if it did not return IN_PROGRESS leave the result as is
(this is the branch holding only the screen-output todo comment), otherwise set
endParameters to the converted cache and the status to SUCCESS (lines 274-285).
Also returns the loop output (instrumentation). -/
def propagateWith {Start C P E : Type} [Inhabited E] (impl : Impl Start C P)
    (start : Start) (options : Options C P E)
    (internal : Result P E → C → Bool) : Result P E × LoopOut C P E :=
  let out := propagate_ impl.step options.action_list options.stop_conditions internal
    options.max_steps (initialResult P E) (initialCache impl start options)
  if out.1 = Status.IN_PROGRESS then
    ({ out.2.result with
        endParameters := some (impl.convert out.2.cache)
        status := Status.SUCCESS }, out.2)
  else
    (out.2.result, out.2)

/-- Public overload propagate(start, options) (lines 240-286). -/
def propagate {Start C P E : Type} [Inhabited E] (impl : Impl Start C P)
    (start : Start) (options : Options C P E) : Result P E × LoopOut C P E :=
  propagateWith impl start options (fun r c => (internalAbortersOf options).check r c)

/-- Configuration of the surface_reached internal aborter by the surface-targeted
overload (lines 341-344): surface = address of target, direction =
options.direction, tolerance = options.target_tolerance. -/
def targetAborterOf {S C P E : Type} (target : S) (options : Options C P E) :
    surface_reached S :=
  { surface := some target
    direction := options.direction
    tolerance := options.target_tolerance }

/-- Modelled from the spec: evaluation of the internal abort list holding
target_reached and path_limit_reached (AbortList.hpp is not under src/) — the
members are evaluated in order, target check first, then path limit, combined by
short-circuit OR. -/
def targetInternalCheck {S C P E : Type} (dist : S → C → ℚ) (target : S)
    (options : Options C P E) : Result P E → C → Bool :=
  fun r c => (targetAborterOf target options).check dist r c
    || (internalAbortersOf options).check r c

/-- Body shared by the surface-targeted overload once the internal abort list is
built: run propagate_; on IN_PROGRESS convert via convert(cache, target) and
mark SUCCESS (lines 352-362). -/
def propagateToSurfaceWith {Start S C P E : Type} [Inhabited E]
    (impl : SurfaceImpl Start S C P) (start : Start) (target : S)
    (options : Options C P E) (internal : Result P E → C → Bool) :
    Result P E × LoopOut C P E :=
  let out := propagate_ impl.step options.action_list options.stop_conditions internal
    options.max_steps (initialResult P E) (initialCacheT impl start options)
  if out.1 = Status.IN_PROGRESS then
    ({ out.2.result with
        endParameters := some (impl.convert out.2.cache target)
        status := Status.SUCCESS }, out.2)
  else
    (out.2.result, out.2)

/-- Public overload propagate(start, target, options) (lines 306-363).  The
surface intersection capability dist is passed alongside the stepping
implementation. -/
def propagateToSurface {Start S C P E : Type} [Inhabited E]
    (impl : SurfaceImpl Start S C P) (dist : S → C → ℚ) (start : Start)
    (target : S) (options : Options C P E) : Result P E × LoopOut C P E :=
  propagateToSurfaceWith impl start target options (targetInternalCheck dist target options)

/-- Fixed-advance stepping implementation over a Nat cache counting steps, used
for concrete evaluations. -/
def countImpl : Impl Unit Nat Unit :=
  { mkCache := fun _ => 0
    setStepSize := fun c _ => c
    step := fun c => (1, c + 1)
    convert := fun _ => () }

/-- Options with a user aborter that always fires, used for concrete
evaluations. -/
def optsAbortNow : Options Nat Unit Unit :=
  { max_steps := 3
    max_path_length := 100
    action_list := fun c e => (c, e)
    stop_conditions := fun _ _ => true }

/-- Field accounting of a single loop-body prefix: one step does not touch the
step counter, adds the returned advance to the path length, and leaves status
and final parameters unchanged. -/
theorem iter_fields {C P E : Type} (stepf : C → ℚ × C) (actf : C → E → C × E)
    (r : Result P E) (c : C) :
    (iter stepf actf r c).1.steps = r.steps
    ∧ (iter stepf actf r c).1.pathLength = r.pathLength + (iter stepf actf r c).2.2
    ∧ (iter stepf actf r c).1.status = r.status
    ∧ (iter stepf actf r c).1.endParameters = r.endParameters := by
  simp [iter]

/-- Master invariant of the stepping loop: there is a list l of per-step
advances (one entry per executed step) such that the step counter and the
step-invocation counter both grow by the length of l, the user abort list is
evaluated once per executed step, the internal aborters are evaluated once per
executed step except on a user-abort break (where the short-circuit OR skips
them), the path length grows by the sum of l, the recorded advances are
extended by l, and status and final parameters are untouched. -/
theorem runLoop_spec {C P E : Type} (stepf : C → ℚ × C) (actf : C → E → C × E)
    (user internal : Result P E → C → Bool) :
    ∀ (fuel : Nat) (r : Result P E) (c : C) (k : Counters),
      ∃ l : List ℚ,
        (runLoop stepf actf user internal fuel r c k).result.steps = r.steps + l.length
        ∧ (runLoop stepf actf user internal fuel r c k).counters.stepCalls
            = k.stepCalls + l.length
        ∧ (runLoop stepf actf user internal fuel r c k).counters.userAbortCalls
            = k.userAbortCalls + l.length
        ∧ (runLoop stepf actf user internal fuel r c k).counters.internalAbortCalls
            + (if (runLoop stepf actf user internal fuel r c k).exit = ExitKind.userAbort
               then 1 else 0)
            = k.internalAbortCalls + l.length
        ∧ (runLoop stepf actf user internal fuel r c k).result.pathLength
            = r.pathLength + l.sum
        ∧ (runLoop stepf actf user internal fuel r c k).counters.advances = k.advances ++ l
        ∧ (runLoop stepf actf user internal fuel r c k).result.status = r.status
        ∧ (runLoop stepf actf user internal fuel r c k).result.endParameters
            = r.endParameters := by
  intro fuel
  induction fuel with
  | zero =>
    intro r c k
    exact ⟨[], by simp [runLoop]⟩
  | succ n ih =>
    intro r c k
    obtain ⟨hst, hpl, hsa, hep⟩ := iter_fields stepf actf r c
    by_cases hu : user (iter stepf actf r c).1 (iter stepf actf r c).2.1 = true
    · refine ⟨[(iter stepf actf r c).2.2], ?_⟩
      simp [runLoop, hu, hst, hpl, hsa, hep]
    · by_cases hi : internal (iter stepf actf r c).1 (iter stepf actf r c).2.1 = true
      · refine ⟨[(iter stepf actf r c).2.2], ?_⟩
        simp [runLoop, hu, hi, hst, hpl, hsa, hep]
      · have hstep : runLoop stepf actf user internal (n + 1) r c k
            = runLoop stepf actf user internal n
                { (iter stepf actf r c).1 with steps := (iter stepf actf r c).1.steps + 1 }
                (iter stepf actf r c).2.1
                { k with
                    stepCalls := k.stepCalls + 1
                    advances := k.advances ++ [(iter stepf actf r c).2.2]
                    userAbortCalls := k.userAbortCalls + 1
                    internalAbortCalls := k.internalAbortCalls + 1 } := by
          simp [runLoop, hu, hi]
        obtain ⟨l, h1, h2, h3, h4, h5, h6, h7, h8⟩ :=
          ih { (iter stepf actf r c).1 with steps := (iter stepf actf r c).1.steps + 1 }
            (iter stepf actf r c).2.1
            { k with
                stepCalls := k.stepCalls + 1
                advances := k.advances ++ [(iter stepf actf r c).2.2]
                userAbortCalls := k.userAbortCalls + 1
                internalAbortCalls := k.internalAbortCalls + 1 }
        refine ⟨(iter stepf actf r c).2.2 :: l, ?_, ?_, ?_, ?_, ?_, ?_, ?_, ?_⟩
        · rw [hstep, h1]
          simp [hst]
          omega
        · rw [hstep, h2]
          simp
          omega
        · rw [hstep, h3]
          simp
          omega
        · rw [hstep, h4]
          simp
          omega
        · rw [hstep, h5]
          simp [hpl]
          ring
        · rw [hstep, h6]
          simp
        · rw [hstep, h7]
          simp [hsa]
        · rw [hstep, h8]
          simp [hep]

/-- Projections of the freshly initialized result object. -/
theorem initialResult_fields (P E : Type) [Inhabited E] :
    (initialResult P E).endParameters = none
    ∧ (initialResult P E).status = Status.IN_PROGRESS
    ∧ (initialResult P E).steps = 0
    ∧ (initialResult P E).pathLength = 0 := by
  simp [initialResult]

/-- When the initial internal-aborter check does not fire, propagate_ returns
IN_PROGRESS together with the output of the stepping loop. -/
theorem propagate_run {C P E : Type} (stepf : C → ℚ × C) (actf : C → E → C × E)
    (user internal : Result P E → C → Bool) (max_steps : Nat) (r : Result P E) (c : C)
    (h : internal r c = false) :
    propagate_ stepf actf user internal max_steps r c
      = (Status.IN_PROGRESS,
         runLoop stepf actf user internal (max_steps - r.steps) r c {}) := by
  simp [propagate_, h]

/-- When the initial internal-aborter check fires, propagate_ returns FAILURE
with the result, the cache and the counters untouched. -/
theorem propagate_fail {C P E : Type} (stepf : C → ℚ × C) (actf : C → E → C × E)
    (user internal : Result P E → C → Bool) (max_steps : Nat) (r : Result P E) (c : C)
    (h : internal r c = true) :
    propagate_ stepf actf user internal max_steps r c
      = (Status.FAILURE, ⟨r, c, {}, ExitKind.precondition⟩) := by
  simp [propagate_, h]

/-- Success path of the unconstrained overload body: when the initial
internal-aborter check does not fire, the returned result is the loop result
with the converted cache and status SUCCESS. -/
theorem propagateWith_run {Start C P E : Type} [Inhabited E] (impl : Impl Start C P)
    (start : Start) (options : Options C P E) (internal : Result P E → C → Bool)
    (h : internal (initialResult P E) (initialCache impl start options) = false) :
    propagateWith impl start options internal
      = ({ (runLoop impl.step options.action_list options.stop_conditions internal
              (options.max_steps - (initialResult P E).steps) (initialResult P E)
              (initialCache impl start options) {}).result with
            endParameters := some (impl.convert (runLoop impl.step options.action_list
              options.stop_conditions internal (options.max_steps - (initialResult P E).steps)
              (initialResult P E) (initialCache impl start options) {}).cache)
            status := Status.SUCCESS },
         runLoop impl.step options.action_list options.stop_conditions internal
           (options.max_steps - (initialResult P E).steps) (initialResult P E)
           (initialCache impl start options) {}) := by
  simp [propagateWith, propagate_run _ _ _ _ _ _ _ h]

/-- Failure path of the unconstrained overload body: when the initial
internal-aborter check fires, the freshly initialized result is returned as is
(status still IN_PROGRESS) and no step is taken. -/
theorem propagateWith_failure {Start C P E : Type} [Inhabited E] (impl : Impl Start C P)
    (start : Start) (options : Options C P E) (internal : Result P E → C → Bool)
    (h : internal (initialResult P E) (initialCache impl start options) = true) :
    propagateWith impl start options internal
      = (initialResult P E,
         ⟨initialResult P E, initialCache impl start options, {}, ExitKind.precondition⟩) := by
  simp [propagateWith, propagate_fail _ _ _ _ _ _ _ h]

/-- Success path of the surface-targeted overload body: as propagateWith_run but
converting with the target surface. -/
theorem propagateToSurfaceWith_run {Start S C P E : Type} [Inhabited E]
    (impl : SurfaceImpl Start S C P) (start : Start) (target : S)
    (options : Options C P E) (internal : Result P E → C → Bool)
    (h : internal (initialResult P E) (initialCacheT impl start options) = false) :
    propagateToSurfaceWith impl start target options internal
      = ({ (runLoop impl.step options.action_list options.stop_conditions internal
              (options.max_steps - (initialResult P E).steps) (initialResult P E)
              (initialCacheT impl start options) {}).result with
            endParameters := some (impl.convert (runLoop impl.step options.action_list
              options.stop_conditions internal (options.max_steps - (initialResult P E).steps)
              (initialResult P E) (initialCacheT impl start options) {}).cache target)
            status := Status.SUCCESS },
         runLoop impl.step options.action_list options.stop_conditions internal
           (options.max_steps - (initialResult P E).steps) (initialResult P E)
           (initialCacheT impl start options) {}) := by
  simp [propagateToSurfaceWith, propagate_run _ _ _ _ _ _ _ h]

/-- Failure path of the surface-targeted overload body. -/
theorem propagateToSurfaceWith_failure {Start S C P E : Type} [Inhabited E]
    (impl : SurfaceImpl Start S C P) (start : Start) (target : S)
    (options : Options C P E) (internal : Result P E → C → Bool)
    (h : internal (initialResult P E) (initialCacheT impl start options) = true) :
    propagateToSurfaceWith impl start target options internal
      = (initialResult P E,
         ⟨initialResult P E, initialCacheT impl start options, {}, ExitKind.precondition⟩) := by
  simp [propagateToSurfaceWith, propagate_fail _ _ _ _ _ _ _ h]

/-- Accounting of a full run of the unconstrained overload body when the initial
internal-aborter check does not fire: l is the list of per-step advances. -/
theorem propagateWith_spec {Start C P E : Type} [Inhabited E] (impl : Impl Start C P)
    (start : Start) (options : Options C P E) (internal : Result P E → C → Bool)
    (h : internal (initialResult P E) (initialCache impl start options) = false) :
    ∃ l : List ℚ,
      (propagateWith impl start options internal).1.steps = l.length
      ∧ (propagateWith impl start options internal).2.counters.stepCalls = l.length
      ∧ (propagateWith impl start options internal).2.counters.userAbortCalls = l.length
      ∧ (propagateWith impl start options internal).2.counters.internalAbortCalls
          + (if (propagateWith impl start options internal).2.exit = ExitKind.userAbort
             then 1 else 0) = l.length
      ∧ (propagateWith impl start options internal).1.pathLength = l.sum
      ∧ (propagateWith impl start options internal).2.counters.advances = l
      ∧ (propagateWith impl start options internal).1.status = Status.SUCCESS
      ∧ (propagateWith impl start options internal).1.endParameters
          = some (impl.convert (propagateWith impl start options internal).2.cache) := by
  obtain ⟨hnone, hstat, hsteps, hpath⟩ := initialResult_fields P E
  obtain ⟨l, h1, h2, h3, h4, h5, h6, h7, h8⟩ := runLoop_spec impl.step options.action_list
    options.stop_conditions internal (options.max_steps - (initialResult P E).steps)
    (initialResult P E) (initialCache impl start options) {}
  simp only [hsteps, Nat.sub_zero] at h1 h2 h3 h4 h5 h6
  refine ⟨l, ?_, ?_, ?_, ?_, ?_, ?_, ?_, ?_⟩ <;>
    rw [propagateWith_run impl start options internal h] <;>
    simp [h1, h2, h3, h4, h5, h6, hsteps, hpath]

/-- Accounting of a full run of the surface-targeted overload body when the
initial internal-aborter check does not fire. -/
theorem propagateToSurfaceWith_spec {Start S C P E : Type} [Inhabited E]
    (impl : SurfaceImpl Start S C P) (start : Start) (target : S)
    (options : Options C P E) (internal : Result P E → C → Bool)
    (h : internal (initialResult P E) (initialCacheT impl start options) = false) :
    ∃ l : List ℚ,
      (propagateToSurfaceWith impl start target options internal).1.steps = l.length
      ∧ (propagateToSurfaceWith impl start target options internal).2.counters.stepCalls
          = l.length
      ∧ (propagateToSurfaceWith impl start target options internal).2.counters.userAbortCalls
          = l.length
      ∧ (propagateToSurfaceWith impl start target options internal).2.counters.internalAbortCalls
          + (if (propagateToSurfaceWith impl start target options internal).2.exit
                = ExitKind.userAbort
             then 1 else 0) = l.length
      ∧ (propagateToSurfaceWith impl start target options internal).1.pathLength = l.sum
      ∧ (propagateToSurfaceWith impl start target options internal).2.counters.advances = l
      ∧ (propagateToSurfaceWith impl start target options internal).1.status = Status.SUCCESS
      ∧ (propagateToSurfaceWith impl start target options internal).1.endParameters
          = some (impl.convert
              (propagateToSurfaceWith impl start target options internal).2.cache target) := by
  obtain ⟨hnone, hstat, hsteps, hpath⟩ := initialResult_fields P E
  obtain ⟨l, h1, h2, h3, h4, h5, h6, h7, h8⟩ := runLoop_spec impl.step options.action_list
    options.stop_conditions internal (options.max_steps - (initialResult P E).steps)
    (initialResult P E) (initialCacheT impl start options) {}
  simp only [hsteps, Nat.sub_zero] at h1 h2 h3 h4 h5 h6
  refine ⟨l, ?_, ?_, ?_, ?_, ?_, ?_, ?_, ?_⟩ <;>
    rw [propagateToSurfaceWith_run impl start target options internal h] <;>
    simp [h1, h2, h3, h4, h5, h6, hsteps, hpath]

/-- C3: propagate_ returns FAILURE if and only if the internal aborters evaluate
true on the initial state before any step is taken; in every other case —
whether the loop exits by reaching max_steps or by an aborter-triggered break —
it returns IN_PROGRESS. -/
theorem propagate_failure_iff_initial_check {C P E : Type} (stepf : C → ℚ × C)
    (actf : C → E → C × E) (user internal : Result P E → C → Bool) (max_steps : Nat)
    (r : Result P E) (c : C) :
    ((propagate_ stepf actf user internal max_steps r c).1 = Status.FAILURE
        ↔ internal r c = true)
    ∧ ((propagate_ stepf actf user internal max_steps r c).1 = Status.IN_PROGRESS
        ↔ internal r c = false) := by
  rcases Bool.eq_false_or_eq_true (internal r c) with h | h
  · rw [propagate_fail _ _ _ _ _ _ _ h]
    simp [h]
  · rw [propagate_run _ _ _ _ _ _ _ h]
    simp [h]

/-- C4: a Result's validity test returns true if and only if the final
parameters are present and the status is SUCCESS; it is never true when the
status is FAILURE, UNSET or IN_PROGRESS. -/
theorem isValid_iff_success_and_params {P E : Type} (r : Result P E) :
    (r.isValid = true ↔ (r.endParameters.isSome = true ∧ r.status = Status.SUCCESS))
    ∧ ((r.status = Status.FAILURE ∨ r.status = Status.UNSET
        ∨ r.status = Status.IN_PROGRESS) → r.isValid = false) := by
  constructor
  · simp [Result.isValid]
  · intro hc
    rcases hc with h | h | h <;> simp [Result.isValid, h]

/-- C4 witness: a concrete result whose status is FAILURE is invalid even though
final parameters are present. -/
theorem isValid_iff_success_and_params_witness :
    ({ endParameters := some 0, status := Status.FAILURE, ext := () } : Result Nat Unit).isValid
      = false :=
  (isValid_iff_success_and_params
    { endParameters := some 0, status := Status.FAILURE, ext := () }).2 (Or.inl rfl)

/-- The claim's description (spec 4.2) of the unconstrained internal-aborter
set: path-limit-reached only, with signed_path_limit = |max_path_length| *
direction and tolerance = target_tolerance. -/
def spec_pathLimitAborter {C P E : Type} (options : Options C P E) : path_limit_reached :=
  { signed_path_limit := |options.max_path_length| * options.direction.toQ
    tolerance := options.target_tolerance }

/-- C7: the unconstrained overload builds an internal-aborter set containing
only the path-limit-reached aborter, configured with signed_path_limit =
|max_path_length| * direction and tolerance = target_tolerance, and runs the
stepping loop with exactly that aborter. -/
theorem unconstrained_overload_internal_aborters {Start C P E : Type} [Inhabited E]
    (impl : Impl Start C P) (start : Start) (options : Options C P E) :
    internalAbortersOf options = spec_pathLimitAborter options
    ∧ (internalAbortersOf options).signed_path_limit
        = |options.max_path_length| * options.direction.toQ
    ∧ (internalAbortersOf options).tolerance = options.target_tolerance
    ∧ propagate impl start options
        = propagateWith impl start options
            (fun r c => (spec_pathLimitAborter options).check r c) :=
  ⟨rfl, rfl, rfl, rfl⟩

/-- Options whose path budget is already exhausted at the start: max_path_length
= 0 makes the initial path-limit check fire. -/
def optsZeroBudget : Options Nat Unit Unit :=
  { max_steps := 3
    max_path_length := 0
    action_list := fun c e => (c, e)
    stop_conditions := fun _ _ => false }

/-- C2 at the failing input: when the initial internal-aborter check fires, the
unconstrained overload returns a Result whose status is IN_PROGRESS — the
FAILURE branch never updates result.status, so the internal-only value escapes
to the caller, contrary to the claim (and to spec section 7). -/
theorem failing_initial_check_returns_in_progress :
    (internalAbortersOf optsZeroBudget).check (initialResult Unit Unit)
        (initialCache countImpl () optsZeroBudget) = true
    ∧ (propagate countImpl () optsZeroBudget).2.exit = ExitKind.precondition
    ∧ (propagate countImpl () optsZeroBudget).1.status = Status.IN_PROGRESS := by
  have hne : Status.FAILURE ≠ Status.IN_PROGRESS := by decide
  norm_num [propagate, propagateWith, propagate_, countImpl, optsZeroBudget, initialResult,
    initialCache, internalAbortersOf, path_limit_reached.check, Direction.toQ, hne]

/-- C5 (amended): on each loop iteration, after the actions run, the user abort
list is evaluated first; the internal aborters are evaluated only when the user
abort list returned false (C++ short-circuit OR), and either list returning true
terminates the loop.  Hence the user list is evaluated once per executed step,
and the internal aborters once per executed step except on a user-abort break. -/
theorem abort_list_evaluation_order {C P E : Type} (stepf : C → ℚ × C)
    (actf : C → E → C × E) (user internal : Result P E → C → Bool) (max_steps : Nat)
    (r : Result P E) (c : C) (h : internal r c = false) :
    (propagate_ stepf actf user internal max_steps r c).2.counters.userAbortCalls
        = (propagate_ stepf actf user internal max_steps r c).2.counters.stepCalls
    ∧ (propagate_ stepf actf user internal max_steps r c).2.counters.internalAbortCalls
        + (if (propagate_ stepf actf user internal max_steps r c).2.exit
              = ExitKind.userAbort then 1 else 0)
        = (propagate_ stepf actf user internal max_steps r c).2.counters.stepCalls := by
  obtain ⟨l, h1, h2, h3, h4, h5, h6, h7, h8⟩ := runLoop_spec stepf actf user internal
    (max_steps - r.steps) r c {}
  rw [propagate_run _ _ _ _ _ _ _ h]
  simp [h2, h3, h4]

/-- Stepper advancing one unit per step on a Nat cache counting the steps. -/
def cexStep : Nat → ℚ × Nat := fun c => (1, c + 1)

/-- Identity action list. -/
def cexAct : Nat → Unit → Nat × Unit := fun c e => (c, e)

/-- User abort list that always fires. -/
def cexUser : Result Unit Unit → Nat → Bool := fun _ _ => true

/-- Internal aborter that fires as soon as at least one step was taken. -/
def cexInternal : Result Unit Unit → Nat → Bool := fun _ c => c != 0

/-- C5 counterexample: a loop iteration on which the user aborter fires and the
internal aborter would also fire (its predicate is true on the break state), yet
the internal aborters are never evaluated inside the loop (internalAbortCalls =
0): the claim's statement that both are evaluated is false on the code. -/
theorem short_circuit_skips_internal_aborters :
    (propagate_ cexStep cexAct cexUser cexInternal 3 (initialResult Unit Unit) 0).2.exit
        = ExitKind.userAbort
    ∧ cexUser
        (propagate_ cexStep cexAct cexUser cexInternal 3 (initialResult Unit Unit) 0).2.result
        (propagate_ cexStep cexAct cexUser cexInternal 3 (initialResult Unit Unit) 0).2.cache
        = true
    ∧ cexInternal
        (propagate_ cexStep cexAct cexUser cexInternal 3 (initialResult Unit Unit) 0).2.result
        (propagate_ cexStep cexAct cexUser cexInternal 3 (initialResult Unit Unit) 0).2.cache
        = true
    ∧ (propagate_ cexStep cexAct cexUser cexInternal 3
        (initialResult Unit Unit) 0).2.counters.userAbortCalls = 1
    ∧ (propagate_ cexStep cexAct cexUser cexInternal 3
        (initialResult Unit Unit) 0).2.counters.internalAbortCalls = 0 := by
  norm_num [propagate_, runLoop, iter, cexStep, cexAct, cexUser, cexInternal, initialResult]

/-- C5 amended witness: the evaluation-order theorem applied to the concrete
scenario where the user aborter fires on the first step. -/
theorem abort_list_evaluation_order_witness :
    (propagate_ cexStep cexAct cexUser cexInternal 3
        (initialResult Unit Unit) 0).2.counters.userAbortCalls
      = (propagate_ cexStep cexAct cexUser cexInternal 3
          (initialResult Unit Unit) 0).2.counters.stepCalls
    ∧ (propagate_ cexStep cexAct cexUser cexInternal 3
        (initialResult Unit Unit) 0).2.counters.internalAbortCalls
        + (if (propagate_ cexStep cexAct cexUser cexInternal 3
              (initialResult Unit Unit) 0).2.exit = ExitKind.userAbort then 1 else 0)
      = (propagate_ cexStep cexAct cexUser cexInternal 3
          (initialResult Unit Unit) 0).2.counters.stepCalls :=
  abort_list_evaluation_order cexStep cexAct cexUser cexInternal 3
    (initialResult Unit Unit) 0 (by norm_num [cexInternal])

/-- C1 (amended): for every call to either propagate overload whose initial
internal-aborter check does not fire, the returned result.steps equals exactly
the number of times the stepping implementation's step was invoked — also when
the loop terminated via an aborter-triggered break: the explicit increment
before the break replaces the skipped loop increment instead of adding an extra
count. -/
theorem steps_equals_step_invocations :
    (∀ (Start C P E : Type) [Inhabited E] (impl : Impl Start C P) (start : Start)
        (options : Options C P E),
      (internalAbortersOf options).check (initialResult P E)
          (initialCache impl start options) = false →
      (propagate impl start options).1.steps
        = (propagate impl start options).2.counters.stepCalls)
    ∧ (∀ (Start S C P E : Type) [Inhabited E] (impl : SurfaceImpl Start S C P)
        (dist : S → C → ℚ) (start : Start) (target : S) (options : Options C P E),
      targetInternalCheck dist target options (initialResult P E)
          (initialCacheT impl start options) = false →
      (propagateToSurface impl dist start target options).1.steps
        = (propagateToSurface impl dist start target options).2.counters.stepCalls) := by
  constructor
  · intro Start C P E instE impl start options h
    obtain ⟨l, h1, h2, _⟩ := propagateWith_spec impl start options
      (fun r c => (internalAbortersOf options).check r c) h
    simp only [propagate]
    rw [h1, h2]
  · intro Start S C P E instE impl dist start target options h
    obtain ⟨l, h1, h2, _⟩ := propagateToSurfaceWith_spec impl start target options
      (targetInternalCheck dist target options) h
    simp only [propagateToSurface]
    rw [h1, h2]

/-- C1 counterexample: an unconstrained propagate call whose loop terminates via
an aborter-triggered break after one step invocation yields steps = 1 =
stepCalls; the claim's value stepCalls + 1 = 2 for the break case is wrong. -/
theorem steps_not_one_extra_on_break :
    (internalAbortersOf optsAbortNow).check (initialResult Unit Unit)
        (initialCache countImpl () optsAbortNow) = false
    ∧ (propagate countImpl () optsAbortNow).2.exit = ExitKind.userAbort
    ∧ (propagate countImpl () optsAbortNow).2.counters.stepCalls = 1
    ∧ (propagate countImpl () optsAbortNow).1.steps = 1
    ∧ ¬((propagate countImpl () optsAbortNow).1.steps
        = (propagate countImpl () optsAbortNow).2.counters.stepCalls + 1) := by
  norm_num [propagate, propagateWith, propagate_, runLoop, iter, countImpl, optsAbortNow,
    initialResult, initialCache, internalAbortersOf, path_limit_reached.check, Direction.toQ]

/-- C1 amended witness: the step-accounting theorem applied to the concrete
break scenario. -/
theorem steps_equals_step_invocations_witness :
    (propagate countImpl () optsAbortNow).1.steps
      = (propagate countImpl () optsAbortNow).2.counters.stepCalls :=
  steps_equals_step_invocations.1 Unit Nat Unit Unit countImpl () optsAbortNow
    (by norm_num [internalAbortersOf, path_limit_reached.check, initialResult, initialCache,
      countImpl, optsAbortNow, Direction.toQ])

/-- C6: a call with max_steps = 0 whose initial internal-aborter check does not
fire never executes the loop body: steps = 0, pathLength = 0, no step invoked,
conversion is still performed on the untouched initial cache, and the status is
SUCCESS. -/
theorem max_steps_zero_converts_initial_cache {Start C P E : Type} [Inhabited E]
    (impl : Impl Start C P) (start : Start) (options : Options C P E)
    (hzero : options.max_steps = 0)
    (h : (internalAbortersOf options).check (initialResult P E)
        (initialCache impl start options) = false) :
    (propagate impl start options).1.steps = 0
    ∧ (propagate impl start options).1.pathLength = 0
    ∧ (propagate impl start options).2.counters.stepCalls = 0
    ∧ (propagate impl start options).1.endParameters
        = some (impl.convert (initialCache impl start options))
    ∧ (propagate impl start options).1.status = Status.SUCCESS := by
  obtain ⟨hnone, hstat, hsteps, hpath⟩ := initialResult_fields P E
  simp only [propagate]
  rw [propagateWith_run impl start options _ h]
  simp [hzero, runLoop, hsteps, hpath]

/-- Options performing a degenerate zero-step propagation. -/
def optsZero : Options Nat Unit Unit :=
  { max_steps := 0
    max_path_length := 100
    action_list := fun c e => (c, e)
    stop_conditions := fun _ _ => false }

/-- C6 witness: the degenerate-call theorem applied to a concrete call with
max_steps = 0. -/
theorem max_steps_zero_converts_initial_cache_witness :
    (propagate countImpl () optsZero).1.steps = 0
    ∧ (propagate countImpl () optsZero).1.pathLength = 0
    ∧ (propagate countImpl () optsZero).2.counters.stepCalls = 0
    ∧ (propagate countImpl () optsZero).1.endParameters
        = some (countImpl.convert (initialCache countImpl () optsZero))
    ∧ (propagate countImpl () optsZero).1.status = Status.SUCCESS :=
  max_steps_zero_converts_initial_cache countImpl () optsZero rfl
    (by norm_num [internalAbortersOf, path_limit_reached.check, initialResult, initialCache,
      countImpl, optsZero, Direction.toQ])

/-- The claim's description (spec 4.3) of the surface-reached internal aborter:
a non-owning reference to the target, the propagation direction, and the target
tolerance. -/
def spec_surfaceAborter {S C P E : Type} (target : S) (options : Options C P E) :
    surface_reached S :=
  { surface := some target
    direction := options.direction
    tolerance := options.target_tolerance }

/-- C8: the surface-targeted overload builds an internal-aborter set combining a
surface-reached aborter (configured with a non-owning reference to target, the
propagation direction and target_tolerance) with path-limit-reached, the target
check evaluated first; on successful termination it converts via the
convert(cache, target) overload. -/
theorem targeted_overload_internal_aborters {Start S C P E : Type} [Inhabited E]
    (impl : SurfaceImpl Start S C P) (dist : S → C → ℚ) (start : Start) (target : S)
    (options : Options C P E) :
    targetAborterOf target options = spec_surfaceAborter target options
    ∧ internalAbortersOf options = spec_pathLimitAborter options
    ∧ propagateToSurface impl dist start target options
        = propagateToSurfaceWith impl start target options
            (fun r c => (spec_surfaceAborter target options).check dist r c
              || (spec_pathLimitAborter options).check r c)
    ∧ (targetInternalCheck dist target options (initialResult P E)
          (initialCacheT impl start options) = false →
        (propagateToSurface impl dist start target options).1.endParameters
          = some (impl.convert
              (propagateToSurface impl dist start target options).2.cache target)
        ∧ (propagateToSurface impl dist start target options).1.status
            = Status.SUCCESS) := by
  refine ⟨rfl, rfl, rfl, fun h => ?_⟩
  obtain ⟨l, _, _, _, _, _, _, h7, h8⟩ := propagateToSurfaceWith_spec impl start target
    options (targetInternalCheck dist target options) h
  constructor
  · simpa [propagateToSurface] using h8
  · simpa [propagateToSurface] using h7

/-- Surface-targeted stepping implementation over a Nat cache counting steps;
the target surface type is Unit. -/
def surfImpl : SurfaceImpl Unit Unit Nat Unit :=
  { mkCache := fun _ _ => 0
    step := fun c => (1, c + 1)
    convert := fun _ _ => () }

/-- Distance-to-surface capability for the concrete scenario: the surface sits
five cache units away from the origin. -/
def surfDist : Unit → Nat → ℚ := fun _ c => 5 - (c : ℚ)

/-- Options for the concrete surface-targeted scenario. -/
def optsSurf : Options Nat Unit Unit :=
  { max_steps := 3
    max_path_length := 100
    action_list := fun c e => (c, e)
    stop_conditions := fun _ _ => false }

/-- C8 witness: the surface-targeted theorem applied to a concrete scenario
whose initial internal-aborter check does not fire. -/
theorem targeted_overload_internal_aborters_witness :
    (propagateToSurface surfImpl surfDist () () optsSurf).1.endParameters
      = some (surfImpl.convert (propagateToSurface surfImpl surfDist () () optsSurf).2.cache ())
    ∧ (propagateToSurface surfImpl surfDist () () optsSurf).1.status = Status.SUCCESS :=
  (targeted_overload_internal_aborters surfImpl surfDist () () optsSurf).2.2.2
    (by norm_num [targetInternalCheck, targetAborterOf, internalAbortersOf,
      surface_reached.check, path_limit_reached.check, initialResult, initialCacheT,
      surfImpl, surfDist, optsSurf, Direction.toQ])

/-- C9: for every call to either propagate overload whose initial
internal-aborter check does not fire, the returned result.pathLength equals the
exact sum of the signed per-step advances returned by step over all executed
steps (and the number of recorded advances equals the number of step
invocations, so the sum ranges exactly over the executed steps). -/
theorem pathLength_is_sum_of_advances :
    (∀ (Start C P E : Type) [Inhabited E] (impl : Impl Start C P) (start : Start)
        (options : Options C P E),
      (internalAbortersOf options).check (initialResult P E)
          (initialCache impl start options) = false →
      (propagate impl start options).1.pathLength
          = (propagate impl start options).2.counters.advances.sum
      ∧ (propagate impl start options).2.counters.advances.length
          = (propagate impl start options).2.counters.stepCalls)
    ∧ (∀ (Start S C P E : Type) [Inhabited E] (impl : SurfaceImpl Start S C P)
        (dist : S → C → ℚ) (start : Start) (target : S) (options : Options C P E),
      targetInternalCheck dist target options (initialResult P E)
          (initialCacheT impl start options) = false →
      (propagateToSurface impl dist start target options).1.pathLength
          = (propagateToSurface impl dist start target options).2.counters.advances.sum
      ∧ (propagateToSurface impl dist start target options).2.counters.advances.length
          = (propagateToSurface impl dist start target options).2.counters.stepCalls) := by
  constructor
  · intro Start C P E instE impl start options h
    obtain ⟨l, h1, h2, h3, h4, h5, h6, _⟩ := propagateWith_spec impl start options
      (fun r c => (internalAbortersOf options).check r c) h
    simp only [propagate]
    rw [h5, h6, h2]
    exact ⟨rfl, rfl⟩
  · intro Start S C P E instE impl dist start target options h
    obtain ⟨l, h1, h2, h3, h4, h5, h6, _⟩ := propagateToSurfaceWith_spec impl start target
      options (targetInternalCheck dist target options) h
    simp only [propagateToSurface]
    rw [h5, h6, h2]
    exact ⟨rfl, rfl⟩

/-- C9 witness: the path-length theorem applied to the concrete break
scenario. -/
theorem pathLength_is_sum_of_advances_witness :
    (propagate countImpl () optsAbortNow).1.pathLength
        = (propagate countImpl () optsAbortNow).2.counters.advances.sum
    ∧ (propagate countImpl () optsAbortNow).2.counters.advances.length
        = (propagate countImpl () optsAbortNow).2.counters.stepCalls :=
  pathLength_is_sum_of_advances.1 Unit Nat Unit Unit countImpl () optsAbortNow
    (by norm_num [internalAbortersOf, path_limit_reached.check, initialResult, initialCache,
      countImpl, optsAbortNow, Direction.toQ])

/-- C10: when the initial internal-aborter check fires in either overload, the
call is atomic with respect to the result: step is never invoked and the
returned Result still has steps = 0, pathLength = 0 and endParameters = none. -/
theorem failing_precondition_is_atomic :
    (∀ (Start C P E : Type) [Inhabited E] (impl : Impl Start C P) (start : Start)
        (options : Options C P E),
      (internalAbortersOf options).check (initialResult P E)
          (initialCache impl start options) = true →
      (propagate impl start options).2.counters.stepCalls = 0
      ∧ (propagate impl start options).1.steps = 0
      ∧ (propagate impl start options).1.pathLength = 0
      ∧ (propagate impl start options).1.endParameters = none)
    ∧ (∀ (Start S C P E : Type) [Inhabited E] (impl : SurfaceImpl Start S C P)
        (dist : S → C → ℚ) (start : Start) (target : S) (options : Options C P E),
      targetInternalCheck dist target options (initialResult P E)
          (initialCacheT impl start options) = true →
      (propagateToSurface impl dist start target options).2.counters.stepCalls = 0
      ∧ (propagateToSurface impl dist start target options).1.steps = 0
      ∧ (propagateToSurface impl dist start target options).1.pathLength = 0
      ∧ (propagateToSurface impl dist start target options).1.endParameters = none) := by
  constructor
  · intro Start C P E instE impl start options h
    simp only [propagate]
    rw [propagateWith_failure impl start options _ h]
    simp [initialResult]
  · intro Start S C P E instE impl dist start target options h
    simp only [propagateToSurface]
    rw [propagateToSurfaceWith_failure impl start target options _ h]
    simp [initialResult]

/-- C10 witness: the atomicity theorem applied to the concrete zero-budget
scenario whose initial path-limit check fires. -/
theorem failing_precondition_is_atomic_witness :
    (propagate countImpl () optsZeroBudget).2.counters.stepCalls = 0
    ∧ (propagate countImpl () optsZeroBudget).1.steps = 0
    ∧ (propagate countImpl () optsZeroBudget).1.pathLength = 0
    ∧ (propagate countImpl () optsZeroBudget).1.endParameters = none :=
  failing_precondition_is_atomic.1 Unit Nat Unit Unit countImpl () optsZeroBudget
    (by norm_num [internalAbortersOf, path_limit_reached.check, initialResult, initialCache,
      countImpl, optsZeroBudget, Direction.toQ])
